import Mathlib

/-!
Verification of the RecipeParser repository (`recipe_parser.py`) against its
specification.  The Python code is shallowly embedded: the tokenizer
`parse_amount_unit_ingredient`, the `ConfigLoader` section getters, the
`number_of_persons` setter, `parse_recipe_info`, `parse_preparation_steps`,
`save_recipe_image` and the `configurations` property are translated into
executable Lean definitions.  Python exceptions (IndexError, UnboundLocalError,
TypeError) are modelled explicitly as `Option.none` or dedicated outcome
constructors; Python `None` is modelled as `Option.none`.  External
collaborators (the HTML document, `json.loads`, the file system, HTTP) are
modelled as inputs to the embedded functions, following the spec's scope.
-/

/-- Python whitespace characters recognised by `str.split()` (ASCII range). -/
def pyIsSpace (c : Char) : Bool :=
  c = ' ' || c = '\t' || c = '\n' || c = '\x0b' || c = '\x0c' || c = '\r'

/-- Helper for `pySplit`: walk the characters, accumulating the current token
reversed; a whitespace character closes the current token (dropping it when
empty), so runs of whitespace produce no empty tokens. -/
def pySplitChars : List Char → List Char → List String
  | [], [] => []
  | [], acc => [String.mk acc.reverse]
  | c :: cs, acc =>
    if pyIsSpace c then
      match acc with
      | [] => pySplitChars cs []
      | _ => String.mk acc.reverse :: pySplitChars cs []
    else pySplitChars cs (c :: acc)

/-- Python `s.split()` with no arguments: split on runs of whitespace and drop
the empty pieces. -/
def pySplit (s : String) : List String :=
  pySplitChars s.data []

/-- Python `str.isnumeric` on ASCII text: the string is nonempty and every
character is a decimal digit. -/
def pyIsNumeric (s : String) : Bool :=
  s != "" && s.data.all Char.isDigit

/-- Value of Python `re.sub(r'\D', '', s)`: the digit characters of `s`, in
order. -/
def stripNonDigits (s : String) : String :=
  String.mk (s.data.filter Char.isDigit)

/-- Helper for `pyContains`: does the needle occur in the haystack character
list? -/
def containsChars (needle : List Char) : List Char → Bool
  | [] => needle.isEmpty
  | l@(_ :: rest) => needle.isPrefixOf l || containsChars needle rest

/-- Python `needle in hay` for strings: substring containment. -/
def pyContains (hay needle : String) : Bool :=
  containsChars needle.data hay.data

/-- Python `d.get(k)` on a dict with string keys, modelled as an association
list. -/
def dictGet {α : Type} (d : List (String × α)) (k : String) : Option α :=
  match d.find? (fun kv => kv.1 == k) with
  | some kv => some kv.2
  | none => none

/-- The amount returned by the tokenizer.  The Python code returns either the
numeric first token unchanged (a string) or the int literal `1`, so the
amount's type is a union of the two. -/
inductive Amount where
  | num : Nat → Amount
  | str : String → Amount
deriving DecidableEq, Repr

/-- Embedding of `RecipeParser.parse_amount_unit_ingredient`.  The result
triple is (amount, unit, ingredient name); the unit `Option.none` is Python
`None`, the tokenizer's no-unit marker (the spec's "unknown").  The overall
`Option.none` models the `IndexError` the code raises at
`ingredient_list[1]` when the split yields exactly one numeric token. -/
def parse_amount_unit_ingredient (ingredient : String) :
    Option (Amount × Option String × String) :=
  match pySplit ingredient with
  | [] => some (Amount.num 1, none, ingredient)
  | first :: rest =>
    if pyIsNumeric first then
      match rest with
      | [] => none
      | second :: rest2 =>
        if 5 ≤ second.length then
          some (Amount.str first, none, String.intercalate " " (second :: rest2))
        else
          some (Amount.str first, some second, String.intercalate " " rest2)
    else
      some (Amount.num 1, none, String.intercalate " " (first :: rest))

/-- A locator section of the configuration document: keys to selector
strings. -/
abbrev SectionConfig := List (String × String)

/-- One source's configuration entry: section name to section map. -/
abbrev SourceEntry := List (String × SectionConfig)

/-- The whole configuration document: normalized source key to entry. -/
abbrev ConfigData := List (String × SourceEntry)

/-- Common body of the four `ConfigLoader` getters:
`data = self.config_data.get(source_recipe, {})`, then the result local is
assigned only inside `if data:`, so when the source key is absent (or maps to
an empty entry) the trailing `return` raises UnboundLocalError — modelled as
`none`. -/
def configSectionLookup (config_data : ConfigData)
    (source_recipe sectionKey : String) : Option SectionConfig :=
  let data := (dictGet config_data source_recipe).getD []
  if data ≠ [] then some ((dictGet data sectionKey).getD [])
  else none

/-- Embedding of `ConfigLoader.get_recipe_info_config`. -/
def get_recipe_info_config (config_data : ConfigData) (source_recipe : String) :
    Option SectionConfig :=
  configSectionLookup config_data source_recipe "recipe_info_config"

/-- Embedding of `ConfigLoader.get_preparation_config`. -/
def get_preparation_config (config_data : ConfigData) (source_recipe : String) :
    Option SectionConfig :=
  configSectionLookup config_data source_recipe "preparation_config"

/-- Embedding of `ConfigLoader.get_ingredients_config`. -/
def get_ingredients_config (config_data : ConfigData) (source_recipe : String) :
    Option SectionConfig :=
  configSectionLookup config_data source_recipe "ingredients_config"

/-- Embedding of `ConfigLoader.get_images_config`. -/
def get_images_config (config_data : ConfigData) (source_recipe : String) :
    Option SectionConfig :=
  configSectionLookup config_data source_recipe "image_config"

/-- Embedding of the `number_of_persons` property setter: `if persons:`
(truthy, i.e. not None and not the empty string) strips the non-digit
characters with `re.sub(r'\D', '', persons)`; the result — possibly the empty
string — is stored in `self._number_of_persons`. -/
def set_number_of_persons (persons : Option String) : Option String :=
  match persons with
  | none => none
  | some s => if s ≠ "" then some (stripNonDigits s) else some s

/-- C1: for every ingredient line whose first whitespace-delimited token is
purely numeric and whose second token has length at least 5, the tokenizer
returns that first token as the quantity, no unit (Python `None`, which the
spec names "unknown"), and the tokens from index 1 onward joined by single
spaces. -/
theorem tokenize_numeric_long_second (line t0 t1 : String) (rest : List String)
    (hsplit : pySplit line = t0 :: t1 :: rest)
    (hnum : pyIsNumeric t0 = true) (hlen : 5 ≤ t1.length) :
    parse_amount_unit_ingredient line =
      some (Amount.str t0, none, String.intercalate " " (t1 :: rest)) := by
  unfold parse_amount_unit_ingredient
  rw [hsplit]
  simp [hnum, hlen]

/-- C1 witness: the spec scenario, line "2 eieren". -/
theorem tokenize_numeric_long_second_witness :
    parse_amount_unit_ingredient "2 eieren" =
      some (Amount.str "2", none, "eieren") := by
  have h := tokenize_numeric_long_second "2 eieren" "2" "eieren" []
    (by rfl) (by rfl) (by decide)
  simpa using h

/-- C3: on an ingredient line that is exactly one purely numeric token the
code raises IndexError at `ingredient_list[1]` (the check on the second token
is not guarded by its presence), modelled as `none` instead of a returned
triple. -/
theorem tokenize_single_numeric_crashes (line t : String)
    (hsplit : pySplit line = [t]) (hnum : pyIsNumeric t = true) :
    parse_amount_unit_ingredient line = none := by
  unfold parse_amount_unit_ingredient
  rw [hsplit]
  simp [hnum]

/-- C3 witness: the failing input "2". -/
theorem tokenize_single_numeric_crashes_witness :
    parse_amount_unit_ingredient "2" = none :=
  tokenize_single_numeric_crashes "2" "2" (by rfl) (by rfl)

/-- C4: for every ingredient line whose first token is purely numeric and
whose second token has length below 5, the tokenizer returns the first token
as quantity, the second token as unit, and the tokens from index 2 onward
joined by single spaces as the name. -/
theorem tokenize_numeric_short_second (line t0 t1 : String) (rest : List String)
    (hsplit : pySplit line = t0 :: t1 :: rest)
    (hnum : pyIsNumeric t0 = true) (hlen : t1.length < 5) :
    parse_amount_unit_ingredient line =
      some (Amount.str t0, some t1, String.intercalate " " rest) := by
  unfold parse_amount_unit_ingredient
  rw [hsplit]
  simp [hnum, Nat.not_le.mpr hlen]

/-- C4 witness: the spec scenario, line "200 g bloem". -/
theorem tokenize_numeric_short_second_witness :
    parse_amount_unit_ingredient "200 g bloem" =
      some (Amount.str "200", some "g", "bloem") := by
  have h := tokenize_numeric_short_second "200 g bloem" "200" "g" ["bloem"]
    (by rfl) (by rfl) (by decide)
  simpa using h

/-- C5 counterexample: for the non-numeric-leading line "zout  peper" (two
inner spaces) the tokenizer's name is the re-joined token list "zout peper",
not the full line as the claim states. -/
theorem tokenize_nonnumeric_fullline_counterexample :
    parse_amount_unit_ingredient "zout  peper" =
      some (Amount.num 1, none, "zout peper") ∧
    "zout peper" ≠ "zout  peper" := by
  exact ⟨by rfl, by decide⟩

/-- C5 amended: for a non-numeric-leading line the tokenizer returns quantity
1, no unit (Python `None`, the spec's "unknown"), and the line's
whitespace-delimited tokens joined by single spaces (the full line exactly when
the line is already single-space separated with no leading or trailing
whitespace); the empty-string line yields (1, no unit, ""). -/
theorem tokenize_nonnumeric_amended :
    parse_amount_unit_ingredient "" = some (Amount.num 1, none, "") ∧
    ∀ (line t0 : String) (rest : List String),
      pySplit line = t0 :: rest → pyIsNumeric t0 = false →
      parse_amount_unit_ingredient line =
        some (Amount.num 1, none, String.intercalate " " (t0 :: rest)) := by
  refine ⟨by rfl, ?_⟩
  intro line t0 rest hsplit hnum
  unfold parse_amount_unit_ingredient
  rw [hsplit]
  simp [hnum]

/-- C2: with a configuration document that lacks the requested source key
(or maps it to an empty entry), each of the four getters raises
UnboundLocalError (modelled `none`) instead of returning the claimed empty
map; when the source key is present with a nonempty entry and the section is
absent, the empty map is indeed returned. -/
theorem config_lookup_absent_source_crashes :
    get_recipe_info_config [] "15gram" = none ∧
    get_ingredients_config [] "15gram" = none ∧
    get_preparation_config [] "15gram" = none ∧
    get_images_config [] "15gram" = none ∧
    get_recipe_info_config [("15gram", [("other_section", [])])] "15gram" =
      some [] := by
  exact ⟨by rfl, by rfl, by rfl, by rfl, by rfl⟩

/-- C6 counterexample: for the extracted text "abc", which has no digit
characters, the setter stores the empty string, not Absent (`none`) as the
claim states. -/
theorem set_persons_digitless_counterexample :
    set_number_of_persons (some "abc") = some "" ∧
    some "" ≠ (none : Option String) := by
  exact ⟨by rfl, by decide⟩

/-- C6 amended: the setter stores Absent exactly when the text is Absent; for
a nonempty text it stores only the text's digit characters, and when the text
has no digit characters the stored value is the empty string (not Absent and
not a sentinel number). -/
theorem set_persons_amended :
    set_number_of_persons none = none ∧
    (∀ s : String, s ≠ "" →
      set_number_of_persons (some s) = some (stripNonDigits s)) ∧
    set_number_of_persons (some "persons") = some "" := by
  refine ⟨by rfl, ?_, by rfl⟩
  intro s hs
  simp [set_number_of_persons, hs]

/-- The JSON-string cleanup in `parse_preparation_steps`:
`json_str.strip().replace('\n', '').replace('\r', '').replace('\t', '')`. -/
def clean_json_str (s : String) : String :=
  ((s.trim.replace "\n" "").replace "\r" "").replace "\t" ""

/-- Result of one run of `parse_preparation_steps`: the final value of
`self.preparation_steps` and whether a JSON decode failure was printed. -/
structure PrepOutcome where
  preparation_steps : List String
  errorReported : Bool
deriving DecidableEq, Repr

/-- Embedding of `RecipeParser.parse_preparation_steps` with the external
collaborators as inputs: `loads` models `json.loads` restricted to the shape
the code reads from it (a top-level object whose values are string lists),
returning `none` on `json.JSONDecodeError`; `block_text` models
`preparation_section.string` in the structured branch; `list_items` models the
stripped texts of `find_all('li')` when the section resolves in list mode
(`none` when `select_one` found nothing); `prev` is the value of
`self.preparation_steps` before the call (`[]` on a fresh instance), which the
decode-failure branch leaves unchanged because it only prints and returns. -/
def parse_preparation_steps (steps : String)
    (loads : String → Option (List (String × List String)))
    (block_text : String) (list_items : Option (List String))
    (prev : List String) : PrepOutcome :=
  if pyContains steps "script" then
    match loads (clean_json_str block_text) with
    | some data_dict =>
        { preparation_steps := (dictGet data_dict "recipeInstructions").getD []
          errorReported := false }
    | none => { preparation_steps := prev, errorReported := true }
  else
    match list_items with
    | some items => { preparation_steps := items, errorReported := false }
    | none => { preparation_steps := [], errorReported := false }

/-- How a run of `save_recipe_image` ends. -/
inductive ImageSaveOutcome where
  | saved : String → ImageSaveOutcome
  | unboundLocalError : ImageSaveOutcome
  | missingAttr : ImageSaveOutcome
  | noImageTag : ImageSaveOutcome
  | noImageContainer : ImageSaveOutcome
deriving DecidableEq, Repr

/-- Result of `save_recipe_image`: whether `os.makedirs` created the target
folder, and how the run ended. -/
structure ImageSaveResult where
  createdFolder : Bool
  outcome : ImageSaveOutcome
deriving DecidableEq, Repr

/-- Python `os.path.join(folder, name)` for a folder without a trailing
separator. -/
def pathJoin (a b : String) : String :=
  a ++ "/" ++ b

/-- Embedding of `RecipeParser.save_recipe_image` downstream of the config
lookup, with the document and file system as inputs: `containerFound` and
`tagFound` model the two `select_one` calls, `src_attr` and `name_attr` the
`image_tag['src']` and `image_tag[image_name_attribute]` subscripts (`none` =
KeyError).  The source guards the path computation with
`if not os.path.exists(image_folder): os.makedirs(...) else: image_path = ...;
response = ...`, so when the folder is absent the folder is created and then
`open(image_path, 'wb')` raises UnboundLocalError. -/
def save_recipe_image (containerFound tagFound : Bool)
    (src_attr name_attr : Option String)
    (image_folder : String) (folderExists : Bool) : ImageSaveResult :=
  if containerFound then
    if tagFound then
      match src_attr, name_attr with
      | some _, some image_name =>
        if !folderExists then
          { createdFolder := true, outcome := ImageSaveOutcome.unboundLocalError }
        else
          { createdFolder := false,
            outcome := ImageSaveOutcome.saved
              (pathJoin image_folder (image_name ++ ".jpg")) }
      | _, _ => { createdFolder := false, outcome := ImageSaveOutcome.missingAttr }
    else { createdFolder := false, outcome := ImageSaveOutcome.noImageTag }
  else { createdFolder := false, outcome := ImageSaveOutcome.noImageContainer }

/-- The RecipeParser state relevant to the `configurations` property: the
`_configurations` attribute. -/
structure ConfigCacheState where
  configurations_cache : ConfigData
deriving DecidableEq, Repr

/-- Number of parameters the `configurations` setter declares:
`def configurations(self):` binds only `self`. -/
def configurations_setter_arity : Nat := 1

/-- Body of the setter as written: no value parameter is bound, and
`self._configurations` is set to the empty dict. -/
def configurations_setter_body (st : ConfigCacheState) : ConfigCacheState :=
  { st with configurations_cache := [] }

/-- Result of a Python attribute assignment: success with the new state, or a
raised TypeError. -/
inductive AssignResult where
  | ok : ConfigCacheState → AssignResult
  | typeError : AssignResult
deriving DecidableEq, Repr

/-- Python property assignment `self.configurations = value` calls the setter
with the two positional arguments `(self, value)`; the call runs the body only
if the setter declares two parameters, and otherwise raises
`TypeError: configurations() takes 1 positional argument but 2 were given`. -/
def assign_configurations (st : ConfigCacheState) (_value : ConfigData) :
    AssignResult :=
  if configurations_setter_arity = 2 then AssignResult.ok (configurations_setter_body st)
  else AssignResult.typeError

/-- The extraction-state fields that `parse_recipe_info` can touch. -/
structure RecipeState where
  recipe_name : Option String
  recipe_description : Option String
  number_of_persons : Option String
  time_duration : Option String
deriving DecidableEq, Repr

/-- Embedding of `RecipeParser.parse_recipe_info` with the document as input:
`doc` maps a selector to the stripped text of the first matching element
(`none` when `select_one` finds nothing).  The four config keys are read in
order inside a try block whose raise is caught and printed; a missing key
leaves the later locals unbound, so the selection block below it updates the
fields already reachable and then raises (TypeError on `select_one(None)` for
the first key, UnboundLocalError for the others) — the Bool records whether
the run raised.  `self.number_of_persons = ...` goes through the
`number_of_persons` setter.  No statement assigns `recipe_description`. -/
def parse_recipe_info (config : SectionConfig) (doc : String → Option String)
    (st : RecipeState) : RecipeState × Bool :=
  match dictGet config "recipe_name" with
  | none => (st, true)
  | some name =>
    match dictGet config "recipe_description" with
    | none => ({ st with recipe_name := doc name }, true)
    | some _ =>
      match dictGet config "recipe_persons" with
      | none => ({ st with recipe_name := doc name }, true)
      | some persons =>
        match dictGet config "recipe_time" with
        | none =>
          ({ st with
              recipe_name := doc name,
              number_of_persons := set_number_of_persons (doc persons) }, true)
        | some time =>
          ({ st with
              recipe_name := doc name,
              number_of_persons := set_number_of_persons (doc persons),
              time_duration := doc time }, false)

/-- C7: in structured-data mode (the configured locator contains "script"),
on a fresh instance the step sequence becomes the parsed object's ordered
`recipeInstructions` list when the cleaned block text parses, and on a decode
failure the failure is reported and the step sequence is empty. -/
theorem prep_steps_structured_mode (steps block_text : String)
    (loads : String → Option (List (String × List String)))
    (list_items : Option (List String))
    (d : List (String × List String)) (l : List String)
    (hmode : pyContains steps "script" = true) :
    (loads (clean_json_str block_text) = some d →
      dictGet d "recipeInstructions" = some l →
      parse_preparation_steps steps loads block_text list_items [] =
        { preparation_steps := l, errorReported := false }) ∧
    (loads (clean_json_str block_text) = none →
      parse_preparation_steps steps loads block_text list_items [] =
        { preparation_steps := [], errorReported := true }) := by
  constructor
  · intro hload hinstr
    simp [parse_preparation_steps, hmode, hload, hinstr]
  · intro hload
    simp [parse_preparation_steps, hmode, hload]

/-- C7 witness: a structured-data block whose instructions parse to
["Mix", "Bake"] yields exactly that sequence; a malformed block yields the
empty sequence with the failure reported. -/
theorem prep_steps_structured_mode_witness :
    parse_preparation_steps "script"
        (fun _ => some [("recipeInstructions", ["Mix", "Bake"])]) "x" none [] =
      { preparation_steps := ["Mix", "Bake"], errorReported := false } ∧
    parse_preparation_steps "script" (fun _ => none) "x" none [] =
      { preparation_steps := [], errorReported := true } := by
  constructor
  · exact (prep_steps_structured_mode "script" "x"
      (fun _ => some [("recipeInstructions", ["Mix", "Bake"])]) none
      [("recipeInstructions", ["Mix", "Bake"])] ["Mix", "Bake"] (by rfl)).1 rfl rfl
  · exact (prep_steps_structured_mode "script" "x"
      (fun _ => none) none [] [] (by rfl)).2 rfl

/-- C8: when container, tag, source URL and name attribute all resolve but the
target folder does not yet exist, the code creates the folder and then raises
UnboundLocalError instead of saving; only in the folder-exists case is the
payload saved to `<image_name>.jpg` inside the folder. -/
theorem save_image_folder_absent_crashes :
    save_recipe_image true true (some "https://e/img") (some "cake") "images" false =
      { createdFolder := true, outcome := ImageSaveOutcome.unboundLocalError } ∧
    save_recipe_image true true (some "https://e/img") (some "cake") "images" true =
      { createdFolder := false, outcome := ImageSaveOutcome.saved "images/cake.jpg" } := by
  exact ⟨by rfl, by rfl⟩

/-- C9 counterexample: assigning the empty configuration document to the
`configurations` property of a state with a nonempty cache raises TypeError
and, in particular, does not produce the claimed emptied cache. -/
theorem assign_configurations_counterexample :
    assign_configurations { configurations_cache := [("15gram", [])] } [] =
      AssignResult.typeError ∧
    assign_configurations { configurations_cache := [("15gram", [])] } [] ≠
      AssignResult.ok { configurations_cache := [] } := by
  exact ⟨by rfl, by decide⟩

/-- C9 amended: assigning any value to the `configurations` property raises
TypeError (the setter is declared with only `self`, while property assignment
passes the value as a second positional argument), so `_configurations` is
never reset by an assignment; the setter's body as written would discard the
value and clear the map, but it can never be invoked successfully. -/
theorem assign_configurations_amended (st : ConfigCacheState) (value : ConfigData) :
    assign_configurations st value = AssignResult.typeError ∧
    configurations_setter_body st = { configurations_cache := [] } :=
  ⟨rfl, rfl⟩

/-- C10: `parse_recipe_info` reads the "recipe_description" locator but never
selects with it nor assigns the field: for every configuration, document and
starting state, `recipe_description` is unchanged by the run. -/
theorem parse_recipe_info_description_unchanged (config : SectionConfig)
    (doc : String → Option String) (st : RecipeState) :
    ((parse_recipe_info config doc st).1).recipe_description =
      st.recipe_description := by
  unfold parse_recipe_info
  cases dictGet config "recipe_name" with
  | none => rfl
  | some name =>
    cases dictGet config "recipe_description" with
    | none => rfl
    | some d =>
      cases dictGet config "recipe_persons" with
      | none => rfl
      | some persons =>
        cases dictGet config "recipe_time" with
        | none => rfl
        | some time => rfl
